import Mathlib

/-!
Verification of the mk2 launchpad driver (src/mk2.c): a shallow embedding of
the frame codec (stuff_buffer, compute_stuffed_size, parse_buffered_data) and
of the read/write endpoint state machines (mk2_read, mk2_write,
mk2_request_read, mk2_write_bulk_callback), together with theorems settling
the specification claims about them.

Bytes are modelled as Nat (the driver only ever masks them with 0x0f, which
we render as taking the value modulo 16).  Machine error codes are Int
values, negated errno numbers exactly as in the C source.  Kernel
collaborators (allocation, user-memory copies, urb submission, locking) are
modelled as environment records carrying the outcome of each external call;
paths that suspend awaiting a concurrent completion callback are modelled as
the value none.
-/

namespace Mk2

/-- Transport maximum for one write call, bytes (407 in the C source). -/
def USB_MK2_MAX_OUT_LEN : Nat := 407

/-- Payload bytes carried per sysex packet. -/
def MK2_SYSEX_PACKET_SIZE : Nat := 3

/-- Width of one stuffed packet on the wire. -/
def MK2_STUFFED_PACKET_SIZE : Nat := 4

/-- Rounding summand used by compute_stuffed_size. -/
def MK2_SYSEX_SIZE_ROUND_UP : Nat := 2

/-- Status code: packet continues the message, 3 payload bytes. -/
def MK2_SYSEX_MOREDATA : Nat := 0x04

/-- Status code: terminal packet carrying 1 payload byte. -/
def MK2_SYSEX_DATAEND1 : Nat := 0x05

/-- Status code: terminal packet carrying 2 payload bytes. -/
def MK2_SYSEX_DATAEND2 : Nat := 0x06

/-- Status code: terminal packet (decode table assigns it width 0). -/
def MK2_SYSEX_DATAEND3 : Nat := 0x07

/-- Status code: button event packet, 3 payload bytes. -/
def MK2_SYSEX_BUTTON : Nat := 0x09

/-- Status code: side-button event packet, 3 payload bytes. -/
def MK2_SYSEX_SBUTTON : Nat := 0x0b

/-- Errno numbers used by the driver (returned negated). -/
def ENOENT : Int := 2

def EINTR : Int := 4

def EIO_code : Int := 5

def EAGAIN : Int := 11

def ENOMEM : Int := 12

def EFAULT : Int := 14

def ENODEV : Int := 19

def EINVAL : Int := 22

def EPIPE : Int := 32

def ECONNRESET : Int := 104

def ESHUTDOWN : Int := 108

def ERESTARTSYS : Int := 512

/-- Embedding of compute_stuffed_size from src/mk2.c: round the payload size
up by 2, divide by the 3-byte packet payload width, multiply by the 4-byte
stuffed packet width. -/
def compute_stuffed_size (payload_size : Nat) : Nat :=
  let stuffed_size := payload_size + MK2_SYSEX_SIZE_ROUND_UP
  let stuffed_size := stuffed_size / MK2_SYSEX_PACKET_SIZE
  let stuffed_size := stuffed_size * MK2_STUFFED_PACKET_SIZE
  stuffed_size

/-- The while loop of stuff_buffer: emit blk packets, each a MOREDATA status
byte followed by three consecutive payload bytes starting at input index ii.
Out-of-range reads yield 0, matching the fact that the C loop only ever reads
in range when blk = count / 3. -/
def stuffBlocks : Nat → Nat → List Nat → List Nat
  | 0, _, _ => []
  | Nat.succ blk, ii, p =>
      MK2_SYSEX_MOREDATA :: p.getD ii 0 :: p.getD (ii + 1) 0 :: p.getD (ii + 2) 0 ::
        stuffBlocks blk (ii + 3) p

/-- Embedding of stuff_buffer from src/mk2.c.  The payload list stands for
the count bytes copied from user space; the result is the stuffed frame of
compute_stuffed_size (length payload) bytes.  For a remainder of 0 the C code
overwrites the status byte of the last emitted packet (buf at oi - 4) with
DATAEND3; for remainders 1 and 2 it appends a zero-padded terminal packet. -/
def stuff_buffer (payload : List Nat) : List Nat :=
  match payload.length % 3 with
  | 0 =>
      (stuffBlocks (payload.length / 3) 0 payload).set
        (4 * (payload.length / 3) - 4) MK2_SYSEX_DATAEND3
  | 1 =>
      stuffBlocks (payload.length / 3) 0 payload ++
        [MK2_SYSEX_DATAEND1, payload.getD (3 * (payload.length / 3)) 0, 0, 0]
  | 2 =>
      stuffBlocks (payload.length / 3) 0 payload ++
        [MK2_SYSEX_DATAEND2, payload.getD (3 * (payload.length / 3)) 0,
          payload.getD (3 * (payload.length / 3) + 1) 0, 0]
  | _ => stuffBlocks (payload.length / 3) 0 payload

/-- Embedding of struct mk2_read_buffer: backing store, capacity, bytes
filled by the last completed transfer, bytes already delivered to callers. -/
structure mk2_read_buffer where
  data : List Nat
  size : Nat
  filled : Nat
  copied : Nat
deriving Repr, DecidableEq

/-- The switch on the status low nibble in parse_buffered_data: payload width
of a packet, or none for the default branch (unrecognized status). -/
def batch_size_of (status_nibble : Nat) : Option Nat :=
  if status_nibble = MK2_SYSEX_MOREDATA ∨ status_nibble = MK2_SYSEX_BUTTON ∨
      status_nibble = MK2_SYSEX_SBUTTON then some 3
  else if status_nibble = MK2_SYSEX_DATAEND1 then some 1
  else if status_nibble = MK2_SYSEX_DATAEND2 then some 2
  else if status_nibble = MK2_SYSEX_DATAEND3 then some 0
  else none

/-- The while loop of parse_buffered_data.  One recursive call per loop
iteration; rb_index advances by 4 each iteration while rb_index < leftover,
so a fuel of leftover + 1 always suffices and the fuel never runs out on the
calls made below.  The status byte is read at data index rb_index (exactly as
in the C source, which does not add the copied offset there) and the payload
bytes at copied + rb_index + 1.  Result: ok (bytes copied to the user, final
rb_index) on normal exit, error (bytes copied so far) for the -EFAULT
returns. -/
def parseLoop (fuel : Nat) (data : List Nat) (copied leftover rb_index rem_size : Nat) :
    Except (List Nat) (List Nat × Nat) :=
  match fuel with
  | 0 => Except.ok ([], rb_index)
  | Nat.succ fuel =>
    if rb_index < leftover then
      match batch_size_of (data.getD rb_index 0 % 16) with
      | none => Except.error []
      | some batch_size =>
        if rem_size < batch_size then Except.ok ([], rb_index)
        else if leftover < rb_index + MK2_STUFFED_PACKET_SIZE then Except.error []
        else
          let payload := (List.range batch_size).map
            (fun j => data.getD (copied + rb_index + 1 + j) 0)
          match parseLoop fuel data copied leftover (rb_index + MK2_STUFFED_PACKET_SIZE)
              (rem_size - batch_size) with
          | Except.error rest => Except.error (payload ++ rest)
          | Except.ok (rest, final) => Except.ok (payload ++ rest, final)
    else Except.ok ([], rb_index)

/-- Indices of the data array read by the corresponding parseLoop run: the
status byte at rb_index for every iteration entered, and the payload bytes at
copied + rb_index + 1 + j whenever the copy to user space is reached. -/
def parseAccesses (fuel : Nat) (data : List Nat) (copied leftover rb_index rem_size : Nat) :
    List Nat :=
  match fuel with
  | 0 => []
  | Nat.succ fuel =>
    if rb_index < leftover then
      rb_index ::
        (match batch_size_of (data.getD rb_index 0 % 16) with
        | none => []
        | some batch_size =>
          if rem_size < batch_size then []
          else if leftover < rb_index + MK2_STUFFED_PACKET_SIZE then []
          else
            (List.range batch_size).map (fun j => copied + rb_index + 1 + j) ++
              parseAccesses fuel data copied leftover (rb_index + MK2_STUFFED_PACKET_SIZE)
                (rem_size - batch_size))
    else []

/-- Embedding of parse_buffered_data from src/mk2.c.  Returns (retval, bytes
written to the user buffer, updated read buffer).  On the -EFAULT paths the
C function returns before the final copied update, so the buffer is returned
unchanged.  The BUG_ON assertions (user_size = 0, leftover = 0) are kernel
panics; every call site in the driver and every theorem below satisfies
them, and for completeness the embedding continues past them with the loop
simply not executing.  copy_to_user is assumed to succeed (the model's user
buffer is valid memory). -/
def parse_buffered_data (rb : mk2_read_buffer) (user_size : Nat) :
    Int × List Nat × mk2_read_buffer :=
  let leftover := rb.filled - rb.copied
  match parseLoop (leftover + 1) rb.data rb.copied leftover 0 user_size with
  | Except.error out => (-EFAULT, out, rb)
  | Except.ok (out, rb_index) =>
      ((out.length : Int), out, { rb with copied := rb.copied + rb_index })

/-- Index set actually touched by parse_buffered_data on the given inputs. -/
def parse_buffered_data_accesses (rb : mk2_read_buffer) (user_size : Nat) : List Nat :=
  let leftover := rb.filled - rb.copied
  parseAccesses (leftover + 1) rb.data rb.copied leftover 0 user_size

/-- State of the write endpoint visible to mk2_write and its completion
callback: the admission semaphore value (free slots of limit_sem), the sticky
error slot, and the device's disconnected flag (reached through dev from the
endpoint in the C source; folded into the same record here). -/
structure WriteSt where
  sem : Nat
  errors : Int
  disconnected : Bool
deriving Repr, DecidableEq

/-- Outcomes of the external collaborator calls made by one mk2_write call:
the caller's O_NONBLOCK flag, whether a blocking semaphore wait would be
interrupted, success of usb_alloc_urb and usb_alloc_coherent, the access_ok
check, the memdup_user result (0 for success, a negative errno otherwise)
and the usb_submit_urb result. -/
structure WriteEnv where
  nonblock : Bool
  interrupted : Bool
  alloc_urb_ok : Bool
  alloc_buf_ok : Bool
  access_ok : Bool
  memdup_ret : Int
  submit_ret : Int
deriving Repr, DecidableEq

/-- Embedding of mk2_write_bulk_callback from src/mk2.c, as a function of the
completed urb's status.  Returns the new endpoint state, whether a nonzero
status was logged as an anomaly (dev_err), and whether the transfer buffer
was freed (usb_free_coherent; unconditional in the source).  The sticky
error slot is written for every nonzero status; only the logging is skipped
for the expected teardown statuses -ENOENT, -ECONNRESET, -ESHUTDOWN.  The
admission slot is released (up on limit_sem) in all cases. -/
def mk2_write_bulk_callback (st : WriteSt) (status : Int) : WriteSt × Bool × Bool :=
  let logged :=
    if status = 0 then false
    else if status = -ENOENT ∨ status = -ECONNRESET ∨ status = -ESHUTDOWN then false
    else true
  let st := if status = 0 then st else { st with errors := status }
  ({ st with sem := st.sem + 1 }, logged, true)

/-- Embedding of mk2_write from src/mk2.c.  The payload list stands for the
count user bytes; count is its length.  Result: none when the call would
suspend indefinitely awaiting a concurrent slot release, otherwise
some (retval, new endpoint state, submitted frame), where the frame is the
stuffed buffer handed to usb_submit_urb and none means no submission
happened.  Mirrors the source order: the count = 0 early exit, truncation to
USB_MK2_MAX_OUT_LEN, slot acquisition, the sticky-error check (clear, remap
-EPIPE / -EIO_code, release the slot), allocations, memdup_user, stuff_buffer,
the disconnected check under io_mutex, submission, and the shared error exit
that releases the slot. -/
def mk2_write (st : WriteSt) (env : WriteEnv) (payload : List Nat) :
    Option (Int × WriteSt × Option (List Nat)) :=
  if payload.length = 0 then some (0, st, none)
  else
    let count := min payload.length USB_MK2_MAX_OUT_LEN
    if st.sem = 0 then
      if env.nonblock then some (-EAGAIN, st, none)
      else if env.interrupted then some (-ERESTARTSYS, st, none)
      else none
    else
      let st1 : WriteSt := { st with sem := st.sem - 1 }
      if st1.errors < 0 then
        some ((if st1.errors = -EPIPE then st1.errors else -EIO_code),
          { st1 with errors := 0, sem := st1.sem + 1 }, none)
      else if env.alloc_urb_ok = false then
        some (-ENOMEM, { st1 with sem := st1.sem + 1 }, none)
      else if env.alloc_buf_ok = false then
        some (-ENOMEM, { st1 with sem := st1.sem + 1 }, none)
      else if env.access_ok = false then
        some (-EINVAL, { st1 with sem := st1.sem + 1 }, none)
      else if env.memdup_ret < 0 then
        some (env.memdup_ret, { st1 with sem := st1.sem + 1 }, none)
      else if st1.disconnected then
        some (-ENODEV, { st1 with sem := st1.sem + 1 }, none)
      else if env.submit_ret ≠ 0 then
        some (env.submit_ret, { st1 with sem := st1.sem + 1 }, none)
      else
        some ((count : Int), st1, some (stuff_buffer (payload.take count)))

/-- State of the read endpoint visible to mk2_read: the read buffer, the
requested_read flag, the sticky error slot, and the disconnected flag. -/
structure ReadSt where
  buffer : mk2_read_buffer
  requested_read : Bool
  errors : Int
  disconnected : Bool
deriving Repr, DecidableEq

/-- Outcomes of the external calls made by one mk2_read call: the caller's
O_NONBLOCK flag, success of mutex_lock_interruptible, and the
usb_submit_urb result used by any mk2_request_read issued during the call. -/
structure ReadEnv where
  nonblock : Bool
  lock_ok : Bool
  submit_ret : Int
deriving Repr, DecidableEq

/-- Embedding of mk2_request_read from src/mk2.c: set requested_read, reset
the buffer's filled and copied fields to 0, then submit the read urb; on
submission failure map the error (-ENOMEM kept, anything else -EIO_code) and
clear requested_read again.  The count argument of the C function is used
only in a debug print; the urb is always filled with the whole buffer. -/
def mk2_request_read (st : ReadSt) (submit_ret : Int) : Int × ReadSt :=
  let st := { st with requested_read := true, buffer.filled := 0, buffer.copied := 0 }
  if submit_ret < 0 then
    ((if submit_ret = -ENOMEM then submit_ret else -EIO_code),
      { st with requested_read := false })
  else
    (submit_ret, st)

/-- Embedding of mk2_read from src/mk2.c.  Result: none when the call
suspends awaiting the completion callback (wait_event_interruptible with an
outstanding request, a path whose continuation needs the concurrent
completion and is outside this sequential model), otherwise
some (retval, new endpoint state, submitted), where submitted records
whether usb_submit_urb was invoked (through mk2_request_read) during the
call.  Mirrors the source order: the count < 3 -EINVAL check, the
interruptible mutex, the disconnected check, the requested_read wait (or
-EAGAIN), the sticky-error check, then either draining the leftover through
parse_buffered_data (with the opportunistic prefetch when retval < count
compared as C does, int converted to size_t) or issuing a fresh request and
retrying, which with the request just set either returns -EAGAIN for a
nonblocking caller or suspends. -/
def ulong_of_int (i : Int) : Nat := (i % (2 ^ 64)).toNat

def mk2_read (st : ReadSt) (env : ReadEnv) (count : Nat) :
    Option (Int × ReadSt × Bool) :=
  if count < MK2_SYSEX_PACKET_SIZE then some (-EINVAL, st, false)
  else if env.lock_ok = false then some (-EINTR, st, false)
  else if st.disconnected then some (-ENODEV, st, false)
  else if st.requested_read then
    if env.nonblock then some (-EAGAIN, st, false) else none
  else if st.errors < 0 then
    some ((if st.errors = -EPIPE then st.errors else -EIO_code), { st with errors := 0 }, false)
  else
    let leftover := st.buffer.filled - st.buffer.copied
    if leftover ≠ 0 then
      let pr := parse_buffered_data st.buffer count
      let st2 : ReadSt := { st with buffer := pr.2.2 }
      if ulong_of_int pr.1 < count then
        some (pr.1, (mk2_request_read st2 env.submit_ret).2, true)
      else
        some (pr.1, st2, false)
    else
      let rr := mk2_request_read st env.submit_ret
      if rr.1 < 0 then some (rr.1, rr.2, true)
      else if env.nonblock then some (-EAGAIN, rr.2, true)
      else none

/-- The block loop emits exactly 4 bytes per full 3-byte group. -/
theorem stuffBlocks_length (k : Nat) : ∀ (ii : Nat) (p : List Nat),
    (stuffBlocks k ii p).length = 4 * k := by
  induction k with
  | zero => intro ii p; simp [stuffBlocks]
  | succ n ih =>
    intro ii p
    simp only [stuffBlocks, List.length_cons, ih]
    omega

/-- Every packet the block loop emits carries the MOREDATA status. -/
theorem stuffBlocks_getD (k : Nat) : ∀ (ii i : Nat) (p : List Nat), i < k →
    (stuffBlocks k ii p).getD (4 * i) 0 = MK2_SYSEX_MOREDATA := by
  induction k with
  | zero => intro ii i p h; omega
  | succ n ih =>
    intro ii i p h
    cases i with
    | zero => simp [stuffBlocks]
    | succ m =>
      rw [show 4 * (m + 1) = 4 * m + 1 + 1 + 1 + 1 by ring]
      simp only [stuffBlocks, List.getD_cons_succ]
      exact ih (ii + 3) m p (by omega)

/-- On a payload whose length is a nonzero multiple of three, stuff_buffer
takes the remainder-0 branch: the emitted blocks with the last status byte
overwritten. -/
theorem stuff_buffer_mod3 (p : List Nat) (k : Nat) (hlen : p.length = 3 * k) :
    stuff_buffer p = (stuffBlocks k 0 p).set (4 * k - 4) MK2_SYSEX_DATAEND3 := by
  have hrem : p.length % 3 = 0 := by omega
  have hblk : p.length / 3 = k := by omega
  unfold stuff_buffer
  rw [hrem, hblk]

/-- Claim C1 (code bug witness): round-trip fails on a payload of length 3.
The frame for payload [1, 2, 3] is a single packet whose status byte was
overwritten to DATAEND3, and the decode table of parse_buffered_data assigns
DATAEND3 a payload width of 0 while the encoder stored 3 payload bytes under
it; decoding the frame with output capacity 3 therefore returns 0 and an
empty payload, where the claim requires 3 and the original bytes. -/
theorem c1_roundtrip_fails_at_length_three :
    (stuff_buffer [1, 2, 3]).length = compute_stuffed_size 3 ∧
    stuff_buffer [1, 2, 3] = [MK2_SYSEX_DATAEND3, 1, 2, 3] ∧
    parse_buffered_data ⟨stuff_buffer [1, 2, 3], 64, 4, 0⟩ 3 =
      (0, [], ⟨stuff_buffer [1, 2, 3], 64, 4, 4⟩) ∧
    (parse_buffered_data ⟨stuff_buffer [1, 2, 3], 64, 4, 0⟩ 3).1 ≠ 3 ∧
    (parse_buffered_data ⟨stuff_buffer [1, 2, 3], 64, 4, 0⟩ 3).2.1 ≠ [1, 2, 3] := by
  decide

/-- Claim C2: compute_stuffed_size is the integer formula ((L + 2) / 3) * 4,
and on lengths 1 through 9 it yields 4, 4, 4, 8, 8, 8, 12, 12, 12. -/
theorem c2_stuffed_size_formula (L : Nat) (h : 1 ≤ L) :
    compute_stuffed_size L = (L + 2) / 3 * 4 ∧
    (List.range 9).map (fun n => compute_stuffed_size (n + 1)) =
      [4, 4, 4, 8, 8, 8, 12, 12, 12] :=
  ⟨rfl, by decide⟩

/-- Witness for C2 at the concrete length 5. -/
theorem c2_stuffed_size_formula_witness :
    1 ≤ 5 ∧
    (compute_stuffed_size 5 = (5 + 2) / 3 * 4 ∧
      (List.range 9).map (fun n => compute_stuffed_size (n + 1)) =
        [4, 4, 4, 8, 8, 8, 12, 12, 12]) :=
  ⟨by decide, c2_stuffed_size_formula 5 (by decide)⟩

/-- Claim C3: for a payload whose length is a nonzero multiple of 3, the
frame is exactly L / 3 packets of 4 bytes (its length equals
compute_stuffed_size L, so no extra trailing packet is appended), the status
byte of the last packet is DATAEND3, and every earlier packet's status is
MOREDATA. -/
theorem c3_terminal_packet_reuse (p : List Nat) (k : Nat) (hk : 1 ≤ k)
    (hlen : p.length = 3 * k) :
    (stuff_buffer p).length = 4 * k ∧
    (stuff_buffer p).length = compute_stuffed_size p.length ∧
    (stuff_buffer p).getD (4 * (k - 1)) 0 = MK2_SYSEX_DATAEND3 ∧
    ∀ i, i + 1 < k → (stuff_buffer p).getD (4 * i) 0 = MK2_SYSEX_MOREDATA := by
  have hsb := stuff_buffer_mod3 p k hlen
  have hlenb : (stuffBlocks k 0 p).length = 4 * k := stuffBlocks_length k 0 p
  refine ⟨?_, ?_, ?_, ?_⟩
  · rw [hsb, List.length_set, hlenb]
  · rw [hsb, List.length_set, hlenb]
    simp only [compute_stuffed_size, hlen, MK2_SYSEX_SIZE_ROUND_UP,
      MK2_SYSEX_PACKET_SIZE, MK2_STUFFED_PACKET_SIZE]
    omega
  · rw [hsb, show 4 * (k - 1) = 4 * k - 4 by omega]
    have hlt : 4 * k - 4 < (stuffBlocks k 0 p).length := by omega
    simp [List.getD_eq_getElem?_getD, List.getElem?_set_self, hlt]
  · intro i hi
    rw [hsb]
    have hne : 4 * k - 4 ≠ 4 * i := by omega
    rw [List.getD_eq_getElem?_getD, List.getElem?_set_ne hne,
      ← List.getD_eq_getElem?_getD]
    exact stuffBlocks_getD k 0 i p (by omega)

/-- Witness for C3 at the concrete payload [1, 2, 3, 4, 5, 6] (k = 2). -/
theorem c3_terminal_packet_reuse_witness :
    1 ≤ 2 ∧ ([1, 2, 3, 4, 5, 6] : List Nat).length = 3 * 2 ∧
    (stuff_buffer [1, 2, 3, 4, 5, 6]).length = 4 * 2 ∧
    (stuff_buffer [1, 2, 3, 4, 5, 6]).getD (4 * (2 - 1)) 0 = MK2_SYSEX_DATAEND3 ∧
    (stuff_buffer [1, 2, 3, 4, 5, 6]).getD (4 * 0) 0 = MK2_SYSEX_MOREDATA :=
  ⟨by decide, by decide,
    (c3_terminal_packet_reuse [1, 2, 3, 4, 5, 6] 2 (by decide) (by decide)).1,
    (c3_terminal_packet_reuse [1, 2, 3, 4, 5, 6] 2 (by decide) (by decide)).2.2.1,
    (c3_terminal_packet_reuse [1, 2, 3, 4, 5, 6] 2 (by decide) (by decide)).2.2.2 0
      (by decide)⟩

/-- Every recognized status nibble declares at most 3 payload bytes. -/
theorem batch_size_le_three (n b : Nat) (h : batch_size_of n = some b) : b ≤ 3 := by
  unfold batch_size_of at h
  split_ifs at h <;> simp_all <;> omega

/-- Every index the parse loop reads lies below copied + leftover: the
status byte is read at rb_index < leftover and the payload bytes at
copied + rb_index + 1 + j with j at most 2 and rb_index + 4 within the
leftover. -/
theorem parseAccesses_bound (fuel : Nat) :
    ∀ (data : List Nat) (copied leftover rbi rem i : Nat),
      i ∈ parseAccesses fuel data copied leftover rbi rem → i < copied + leftover := by
  induction fuel with
  | zero =>
    intro data copied leftover rbi rem i h
    simp [parseAccesses] at h
  | succ n ih =>
    intro data copied leftover rbi rem i h
    simp only [parseAccesses, MK2_STUFFED_PACKET_SIZE] at h
    split at h
    · rename_i hlt
      rcases List.mem_cons.mp h with rfl | h2
      · omega
      · split at h2
        · simp at h2
        · rename_i b hb
          split at h2
          · simp at h2
          · rename_i hrem
            split at h2
            · simp at h2
            · rename_i hbound
              rcases List.mem_append.mp h2 with h3 | h3
              · have hb3 : b ≤ 3 := batch_size_le_three _ _ hb
                obtain ⟨j, hj, rfl⟩ : ∃ j, j < b ∧ copied + rbi + 1 + j = i := by
                  simpa using h3
                omega
              · exact ih data copied leftover (rbi + 4) (rem - b) i h3
    · simp at h

/-- Claim C4: framing-fault containment in parse_buffered_data.  Conjuncts:
a loop step that reads an unrecognized status nibble faults; a loop step
whose packet boundary rb_index + 4 would exceed the leftover faults (when
the remaining capacity admits the declared width, since the C code breaks on
insufficient capacity before the boundary check); a fault in a later
iteration propagates outward, so encountering either condition anywhere
faults the whole decode; a faulted decode returns -EFAULT with the copied
field not advanced at all; and every index read lies inside the filled
region. -/
theorem c4_framing_fault_containment (rb : mk2_read_buffer) (u : Nat) (hu : 3 ≤ u) :
    (∀ f rbi rem, rbi < rb.filled - rb.copied →
      batch_size_of (rb.data.getD rbi 0 % 16) = none →
      parseLoop (f + 1) rb.data rb.copied (rb.filled - rb.copied) rbi rem =
        Except.error []) ∧
    (∀ f rbi rem b, rbi < rb.filled - rb.copied →
      batch_size_of (rb.data.getD rbi 0 % 16) = some b → b ≤ rem →
      rb.filled - rb.copied < rbi + MK2_STUFFED_PACKET_SIZE →
      parseLoop (f + 1) rb.data rb.copied (rb.filled - rb.copied) rbi rem =
        Except.error []) ∧
    (∀ f rbi rem b out, rbi < rb.filled - rb.copied →
      batch_size_of (rb.data.getD rbi 0 % 16) = some b → b ≤ rem →
      rbi + MK2_STUFFED_PACKET_SIZE ≤ rb.filled - rb.copied →
      parseLoop f rb.data rb.copied (rb.filled - rb.copied)
        (rbi + MK2_STUFFED_PACKET_SIZE) (rem - b) = Except.error out →
      ∃ out2, parseLoop (f + 1) rb.data rb.copied (rb.filled - rb.copied) rbi rem =
        Except.error out2) ∧
    (∀ out, parseLoop (rb.filled - rb.copied + 1) rb.data rb.copied
        (rb.filled - rb.copied) 0 u = Except.error out →
      parse_buffered_data rb u = (-EFAULT, out, rb)) ∧
    (rb.copied ≤ rb.filled →
      ∀ i ∈ parse_buffered_data_accesses rb u, i < rb.filled) := by
  refine ⟨?_, ?_, ?_, ?_, ?_⟩
  · intro f rbi rem h1 hb
    simp only [parseLoop, if_pos h1, hb]
  · intro f rbi rem b h1 hb hble hbound
    simp only [parseLoop, if_pos h1, hb, if_neg (not_lt.mpr hble), if_pos hbound]
  · intro f rbi rem b out h1 hb hble hbound hrec
    refine ⟨(List.range b).map (fun j => rb.data.getD (rb.copied + rbi + 1 + j) 0) ++ out, ?_⟩
    simp only [parseLoop, if_pos h1, hb, if_neg (not_lt.mpr hble),
      if_neg (not_lt.mpr hbound), hrec]
  · intro out h
    simp only [parse_buffered_data, h]
  · intro hcf i hi
    have := parseAccesses_bound (rb.filled - rb.copied + 1) rb.data rb.copied
      (rb.filled - rb.copied) 0 u i hi
    omega

/-- Witness for C4: a buffer whose first packet has the unrecognized status
nibble 0x0 makes the decode step fault. -/
theorem c4_framing_fault_containment_witness :
    3 ≤ 3 ∧ (0 : Nat) < 4 - 0 ∧
    batch_size_of (([0, 1, 2, 3] : List Nat).getD 0 0 % 16) = none ∧
    parseLoop 1 [0, 1, 2, 3] 0 4 0 3 = Except.error [] :=
  ⟨by decide, by decide, by decide,
    (c4_framing_fault_containment ⟨[0, 1, 2, 3], 64, 4, 0⟩ 3 (by decide)).1 0 0 3
      (by decide) (by decide)⟩

/-- A write call on a clean endpoint with all collaborator calls succeeding:
acquires one slot, submits the stuffed frame of the (possibly truncated)
payload and returns the truncated byte count. -/
theorem mk2_write_ok (st : WriteSt) (env : WriteEnv) (p : List Nat) (hp : p ≠ [])
    (hsem : 0 < st.sem) (herr : ¬ st.errors < 0) (hdisc : st.disconnected = false)
    (hurb : env.alloc_urb_ok = true) (hbuf : env.alloc_buf_ok = true)
    (hacc : env.access_ok = true) (hmem : ¬ env.memdup_ret < 0)
    (hsub : env.submit_ret = 0) :
    mk2_write st env p =
      some (((min p.length USB_MK2_MAX_OUT_LEN : Nat) : Int),
        { st with sem := st.sem - 1 },
        some (stuff_buffer (p.take (min p.length USB_MK2_MAX_OUT_LEN)))) := by
  have hlen : ¬ p.length = 0 := by simpa using hp
  have hsem0 : ¬ st.sem = 0 := by omega
  simp [mk2_write, hlen, hsem0, herr, hurb, hbuf, hacc, hmem, hdisc, hsub]

/-- Claim C5 counterexample: with every collaborator call succeeding and a
free slot, a write of 408 bytes returns 407 (the truncated count), not the
original untruncated byte count 408 the claim requires. -/
theorem c5_untruncated_count_counterexample :
    (mk2_write ⟨1, 0, false⟩ ⟨false, false, true, true, true, 0, 0⟩
        (List.replicate 408 7)).map (fun r => r.1) = some 407 ∧
    ((407 : Int) ≠ 408) := by
  have hlen : (List.replicate 408 (7 : Nat)).length = 408 := List.length_replicate 408 7
  have hp : List.replicate 408 (7 : Nat) ≠ [] := by
    intro h
    rw [h] at hlen
    exact absurd hlen (by decide)
  constructor
  · rw [mk2_write_ok ⟨1, 0, false⟩ ⟨false, false, true, true, true, 0, 0⟩
      (List.replicate 408 7) hp (by decide) (by decide) rfl rfl rfl rfl (by decide) rfl,
      hlen]
    decide
  · decide

/-- Claim C5 as amended: a zero-length write returns 0 without touching the
admission slot or submitting; an overlong payload is truncated to 407 bytes
rather than rejected, the submitted frame being the stuffed encoding of the
truncated payload; and a successful submission returns the truncated byte
count min(count, 407) (not the original count). -/
theorem c5_write_noop_and_truncation (st : WriteSt) (env : WriteEnv) (p : List Nat)
    (hsem : 0 < st.sem) (herr : st.errors = 0) (hdisc : st.disconnected = false)
    (hurb : env.alloc_urb_ok = true) (hbuf : env.alloc_buf_ok = true)
    (hacc : env.access_ok = true) (hmem : env.memdup_ret = 0)
    (hsub : env.submit_ret = 0) :
    mk2_write st env [] = some (0, st, none) ∧
    (p ≠ [] → mk2_write st env p =
      some (((min p.length USB_MK2_MAX_OUT_LEN : Nat) : Int),
        { st with sem := st.sem - 1 },
        some (stuff_buffer (p.take (min p.length USB_MK2_MAX_OUT_LEN))))) := by
  constructor
  · simp [mk2_write]
  · intro hp
    exact mk2_write_ok st env p hp hsem (by omega) hdisc hurb hbuf hacc (by omega) hsub

/-- Witness for the amended C5 on a concrete 4-byte payload. -/
theorem c5_write_noop_and_truncation_witness :
    (0 : Nat) < 1 ∧
    mk2_write ⟨1, 0, false⟩ ⟨false, false, true, true, true, 0, 0⟩ [] =
      some (0, ⟨1, 0, false⟩, none) ∧
    mk2_write ⟨1, 0, false⟩ ⟨false, false, true, true, true, 0, 0⟩ [9, 9, 9, 9] =
      some (((min (List.length [9, 9, 9, 9]) USB_MK2_MAX_OUT_LEN : Nat) : Int),
        ⟨0, 0, false⟩,
        some (stuff_buffer (List.take (min (List.length [9, 9, 9, 9]) USB_MK2_MAX_OUT_LEN)
          [9, 9, 9, 9]))) :=
  ⟨by decide,
    (c5_write_noop_and_truncation ⟨1, 0, false⟩ ⟨false, false, true, true, true, 0, 0⟩
      [9, 9, 9, 9] (by decide) rfl rfl rfl rfl rfl rfl rfl).1,
    (c5_write_noop_and_truncation ⟨1, 0, false⟩ ⟨false, false, true, true, true, 0, 0⟩
      [9, 9, 9, 9] (by decide) rfl rfl rfl rfl rfl rfl rfl).2 (by decide)⟩

/-- Claim C6: a write that acquires a slot while the sticky error slot is
negative clears the error to 0, releases the slot (the semaphore value is
restored), and returns the error mapped: -EPIPE kept, any other negative
value turned into -EIO_code.  The error is surfaced exactly once: a subsequent
write on the resulting state, with no new completion failure, succeeds. -/
theorem c6_sticky_error_surfaced_once (st : WriteSt) (env env2 : WriteEnv)
    (p p2 : List Nat) (hp : p ≠ []) (hp2 : p2 ≠ []) (hsem : 0 < st.sem)
    (herr : st.errors < 0) (hdisc : st.disconnected = false)
    (hurb : env2.alloc_urb_ok = true) (hbuf : env2.alloc_buf_ok = true)
    (hacc : env2.access_ok = true) (hmem : env2.memdup_ret = 0)
    (hsub : env2.submit_ret = 0) :
    mk2_write st env p =
      some ((if st.errors = -EPIPE then st.errors else -EIO_code),
        { st with errors := 0 }, none) ∧
    mk2_write { st with errors := 0 } env2 p2 =
      some (((min p2.length USB_MK2_MAX_OUT_LEN : Nat) : Int),
        { st with errors := 0, sem := st.sem - 1 },
        some (stuff_buffer (p2.take (min p2.length USB_MK2_MAX_OUT_LEN)))) := by
  constructor
  · have hlen : ¬ p.length = 0 := by simpa using hp
    have hsem0 : ¬ st.sem = 0 := by omega
    simp only [mk2_write, if_neg hlen, if_neg hsem0]
    rw [if_pos (show ({ st with sem := st.sem - 1 } : WriteSt).errors < 0 from herr)]
    rw [show st.sem - 1 + 1 = st.sem from by omega]
  · exact mk2_write_ok { st with errors := 0 } env2 p2 hp2 (by simpa using hsem)
      (by simp) (by simpa using hdisc) hurb hbuf hacc (by simp [hmem]) hsub

/-- Witness for C6: a sticky -1 is surfaced as -EIO_code and cleared, and the
next write succeeds. -/
theorem c6_sticky_error_surfaced_once_witness :
    ((-1 : Int) < 0) ∧
    mk2_write ⟨1, -1, false⟩ ⟨false, false, true, true, true, 0, 0⟩ [1, 2, 3] =
      some (-EIO_code, ⟨1, 0, false⟩, none) ∧
    mk2_write ⟨1, 0, false⟩ ⟨false, false, true, true, true, 0, 0⟩ [4] =
      some (1, ⟨0, 0, false⟩, some (stuff_buffer [4])) :=
  ⟨by decide,
    (c6_sticky_error_surfaced_once ⟨1, -1, false⟩
      ⟨false, false, true, true, true, 0, 0⟩ ⟨false, false, true, true, true, 0, 0⟩
      [1, 2, 3] [4] (by decide) (by decide) (by decide) (by decide)
      rfl rfl rfl rfl rfl rfl).1,
    (c6_sticky_error_surfaced_once ⟨1, -1, false⟩
      ⟨false, false, true, true, true, 0, 0⟩ ⟨false, false, true, true, true, 0, 0⟩
      [1, 2, 3] [4] (by decide) (by decide) (by decide) (by decide)
      rfl rfl rfl rfl rfl rfl).2⟩

/-- Claim C7 counterexample: on a transfer completed with status -ENOENT
(expected cancellation) the callback still records the sticky error, where
the claim requires the error slot to be written only for statuses other
than -ENOENT, -ECONNRESET and -ESHUTDOWN. -/
theorem c7_records_expected_teardown_counterexample :
    (mk2_write_bulk_callback ⟨1, 0, false⟩ (-ENOENT)).1.errors = -ENOENT ∧
    (mk2_write_bulk_callback ⟨1, 0, false⟩ (-ENOENT)).1.errors ≠ 0 := by decide

/-- Claim C7 as amended: the completion callback records a sticky error for
every nonzero status (only the anomaly logging is restricted to statuses
other than the expected teardown codes -ENOENT, -ECONNRESET, -ESHUTDOWN),
and in all cases it releases exactly one admission slot and frees the
transfer buffer. -/
theorem c7_callback_always_records_failures (st : WriteSt) (status : Int) :
    (mk2_write_bulk_callback st status).1.sem = st.sem + 1 ∧
    (mk2_write_bulk_callback st status).1.errors =
      (if status = 0 then st.errors else status) ∧
    (mk2_write_bulk_callback st status).1.disconnected = st.disconnected ∧
    (mk2_write_bulk_callback st status).2.2 = true ∧
    ((mk2_write_bulk_callback st status).2.1 = true ↔
      status ≠ 0 ∧ ¬(status = -ENOENT ∨ status = -ECONNRESET ∨ status = -ESHUTDOWN)) := by
  simp only [mk2_write_bulk_callback]
  split_ifs <;> simp_all

/-- Claim C8 (code bug witness): the decode step reads the status byte at
the offset rb_index from the start of the buffer instead of from the copied
offset, so a resumed drain decodes under the first packet's status.  For
the frame MOREDATA 1 2 3, DATAEND1 4: two reads of capacity 3 yield
1 2 3 then 4 0 0 (the second call misreads DATAEND1 as MOREDATA and copies
the padding), while a single read of capacity 6 yields 1 2 3 4; the claim
requires the two drains to concatenate to the single drain.  The copied
field itself does advance by the consumed multiple of 4 and stays within
filled, as the claim states. -/
theorem c8_stale_status_two_call_drain :
    parse_buffered_data ⟨[4, 1, 2, 3, 5, 4, 0, 0], 64, 8, 0⟩ 3 =
      (3, [1, 2, 3], ⟨[4, 1, 2, 3, 5, 4, 0, 0], 64, 8, 4⟩) ∧
    parse_buffered_data ⟨[4, 1, 2, 3, 5, 4, 0, 0], 64, 8, 4⟩ 3 =
      (3, [4, 0, 0], ⟨[4, 1, 2, 3, 5, 4, 0, 0], 64, 8, 8⟩) ∧
    parse_buffered_data ⟨[4, 1, 2, 3, 5, 4, 0, 0], 64, 8, 0⟩ 6 =
      (4, [1, 2, 3, 4], ⟨[4, 1, 2, 3, 5, 4, 0, 0], 64, 8, 8⟩) ∧
    ([1, 2, 3] ++ [4, 0, 0] : List Nat) ≠ [1, 2, 3, 4] := by decide

/-- Claim C9 counterexample: a zero-length write on a disconnected device
returns 0 (the no-op success path runs before the disconnected check), not
the device-gone error -ENODEV the claim requires of every call. -/
theorem c9_zero_write_after_disconnect_counterexample :
    mk2_write ⟨1, 0, true⟩ ⟨false, false, true, true, true, 0, 0⟩ [] =
      some (0, ⟨1, 0, true⟩, none) ∧
    ((0 : Int) ≠ -ENODEV) := by decide

/-- Claim C9 as amended: after disconnect, a read call that reaches the
disconnect check (capacity at least 3, lock taken) returns -ENODEV with the
state unchanged and nothing submitted; a write call that reaches its
disconnect check (nonzero count, slot acquired, no sticky error, allocations
and user copy succeeded) returns -ENODEV with the slot released and nothing
submitted; and no read or write call made while disconnected ever submits a
transfer, whatever path it takes (calls failing earlier return their own
earlier errors, as the counterexample shows). -/
theorem c9_disconnected_no_io :
    (∀ (st : ReadSt) (env : ReadEnv) (count : Nat),
      st.disconnected = true → env.lock_ok = true → 3 ≤ count →
      mk2_read st env count = some (-ENODEV, st, false)) ∧
    (∀ (st : WriteSt) (env : WriteEnv) (p : List Nat),
      st.disconnected = true → p ≠ [] → 0 < st.sem → ¬ st.errors < 0 →
      env.alloc_urb_ok = true → env.alloc_buf_ok = true → env.access_ok = true →
      ¬ env.memdup_ret < 0 →
      mk2_write st env p = some (-ENODEV, st, none)) ∧
    (∀ (st : ReadSt) (env : ReadEnv) (count : Nat) (res : Int × ReadSt × Bool),
      st.disconnected = true → mk2_read st env count = some res →
      res.2.2 = false) ∧
    (∀ (st : WriteSt) (env : WriteEnv) (p : List Nat)
        (res : Int × WriteSt × Option (List Nat)),
      st.disconnected = true → mk2_write st env p = some res →
      res.2.2 = none) := by
  refine ⟨?_, ?_, ?_, ?_⟩
  · intro st env count hdisc hlock hcount
    have hc : ¬ count < MK2_SYSEX_PACKET_SIZE := by
      simp only [MK2_SYSEX_PACKET_SIZE]; omega
    simp [mk2_read, hc, hlock, hdisc]
  · intro st env p hdisc hp hsem herr hurb hbuf hacc hmem
    have hlen : ¬ p.length = 0 := by simpa using hp
    have hsem0 : ¬ st.sem = 0 := by omega
    simp only [mk2_write, if_neg hlen, if_neg hsem0]
    rw [if_neg (show ¬ ({ st with sem := st.sem - 1 } : WriteSt).errors < 0 from herr)]
    rw [if_neg (show ¬ env.alloc_urb_ok = false from by simp [hurb])]
    rw [if_neg (show ¬ env.alloc_buf_ok = false from by simp [hbuf])]
    rw [if_neg (show ¬ env.access_ok = false from by simp [hacc])]
    rw [if_neg hmem]
    rw [if_pos (show ({ st with sem := st.sem - 1 } : WriteSt).disconnected = true from hdisc)]
    rw [show st.sem - 1 + 1 = st.sem from by omega]
  · intro st env count res hdisc heq
    simp only [mk2_read] at heq
    split_ifs at heq <;> simp_all <;> (subst heq; rfl)
  · intro st env p res hdisc heq
    simp only [mk2_write] at heq
    split_ifs at heq <;> simp_all <;> (subst heq; rfl)

/-- Witness for the amended C9: a 3-byte read on a disconnected endpoint
returns -ENODEV without submitting. -/
theorem c9_disconnected_no_io_witness :
    3 ≤ 3 ∧
    mk2_read ⟨⟨[], 64, 0, 0⟩, false, 0, true⟩ ⟨false, true, 0⟩ 3 =
      some (-ENODEV, ⟨⟨[], 64, 0, 0⟩, false, 0, true⟩, false) :=
  ⟨by decide,
    c9_disconnected_no_io.1 ⟨⟨[], 64, 0, 0⟩, false, 0, true⟩ ⟨false, true, 0⟩ 3
      rfl rfl (by decide)⟩

/-- Claim C10: mk2_request_read always leaves the buffer's filled and copied
fields at 0 and sets requested_read (clearing it again only on submission
failure); consequently, when the opportunistic prefetch in mk2_read fires
after a partial drain (decoded count below the requested capacity compared
as C does, with leftover present), the read returns the decoded bytes but
the unconsumed buffered packets are discarded with the buffer reset, so they
can never be delivered to any caller. -/
theorem c10_prefetch_discards_leftover :
    (∀ (st : ReadSt) (ret : Int),
      (mk2_request_read st ret).2.buffer.filled = 0 ∧
      (mk2_request_read st ret).2.buffer.copied = 0 ∧
      (mk2_request_read st ret).2.requested_read =
        (if ret < 0 then false else true)) ∧
    (∀ (st : ReadSt) (env : ReadEnv) (count : Nat) (r : Int) (out : List Nat)
        (buf : mk2_read_buffer),
      env.lock_ok = true → st.disconnected = false → st.requested_read = false →
      ¬ st.errors < 0 → 3 ≤ count → st.buffer.filled - st.buffer.copied ≠ 0 →
      parse_buffered_data st.buffer count = (r, out, buf) →
      ulong_of_int r < count →
      mk2_read st env count =
        some (r, (mk2_request_read { st with buffer := buf } env.submit_ret).2, true) ∧
      (mk2_request_read { st with buffer := buf } env.submit_ret).2.buffer.filled = 0 ∧
      (mk2_request_read { st with buffer := buf } env.submit_ret).2.buffer.copied = 0) := by
  constructor
  · intro st ret
    simp only [mk2_request_read]
    split_ifs <;> simp
  · intro st env count r out buf hlock hdisc hreq herr hcount hleft hparse hless
    have hc : ¬ count < MK2_SYSEX_PACKET_SIZE := by
      simp only [MK2_SYSEX_PACKET_SIZE]; omega
    refine ⟨?_, ?_, ?_⟩
    · simp only [mk2_read, if_neg hc, hlock, hdisc, hreq, if_neg herr, hparse]
      simp [hleft, hless]
    · simp only [mk2_request_read]
      split_ifs <;> simp
    · simp only [mk2_request_read]
      split_ifs <;> simp

/-- Witness for C10: a frame holding a DATAEND1 packet followed by a full
MOREDATA packet, drained with capacity 3: one byte is returned, the prefetch
fires and the four still-undelivered buffered bytes are discarded. -/
theorem c10_prefetch_discards_leftover_witness :
    3 ≤ 3 ∧
    parse_buffered_data ⟨[5, 9, 0, 0, 4, 1, 2, 3], 64, 8, 0⟩ 3 =
      (1, [9], ⟨[5, 9, 0, 0, 4, 1, 2, 3], 64, 8, 4⟩) ∧
    mk2_read ⟨⟨[5, 9, 0, 0, 4, 1, 2, 3], 64, 8, 0⟩, false, 0, false⟩ ⟨false, true, 0⟩ 3 =
      some (1, ⟨⟨[5, 9, 0, 0, 4, 1, 2, 3], 64, 0, 0⟩, true, 0, false⟩, true) :=
  ⟨by decide, by decide,
    (c10_prefetch_discards_leftover.2
      ⟨⟨[5, 9, 0, 0, 4, 1, 2, 3], 64, 8, 0⟩, false, 0, false⟩ ⟨false, true, 0⟩ 3 1 [9]
      ⟨[5, 9, 0, 0, 4, 1, 2, 3], 64, 8, 4⟩ rfl rfl rfl (by decide) (by decide)
      (by decide) (by decide) (by decide)).1⟩

end Mk2
